import Mathlib

/-!
Shallow embedding of `src/core/orchestrator.py` (class `SystemOrchestrator`).

The operating system is modelled as an oracle (`Env`): the i-th call to
`_get_process_on_port` on a given port returns `Env.look i`, and the i-th
socket-bind attempt returns `Env.bind i`.  Every embedded method returns,
besides its result, the ordered trace of externally visible events it
produced (occupancy lookups, remediation commands, sleeps, bind attempts),
and the index of the next unread lookup, so that the sequencing of the
Python code is preserved exactly.
-/

namespace LocalLLM

/-- Result of `_get_process_on_port`: pid and process name
(`tasklist` first CSV column), as in the Python tuple `(pid, name)`. -/
structure ProcInfo where
  pid : Nat
  name : String
deriving DecidableEq

/-- The remediation commands issued by `_kill_process_on_port`
(lines 517-532 and 562, 577 of the source). -/
inductive Cmd where
  /-- Command `powershell Stop-Process -Id pid`, with optional `-Force`. -/
  | stopProcess (pid : Nat) (force : Bool)
  /-- Command `powershell Get-NetTCPConnection -LocalPort port | ... Stop-Process -Force`. -/
  | stopByPort (port : Nat)
  /-- Command `taskkill /F [/T] /PID pid`. -/
  | taskkill (pid : Nat) (tree : Bool)
  /-- Command `netsh int ipv4 delete excludedportrange ... startport=port`. -/
  | delExcludedRange (port : Nat)
  /-- Command `netsh int ipv4 add excludedportrange ... startport=port`. -/
  | addExcludedRange (port : Nat)
  /-- Command `powershell Set-NetTCPSetting ... AutoTuningLevelLocal Disabled/Normal`. -/
  | tcpAutoTuning (enabled : Bool)
  /-- Command `netsh winsock reset`. -/
  | winsockReset
  /-- Command `netsh int ip reset`. -/
  | intIpReset
deriving DecidableEq

/-- Externally visible events of the embedded methods, in program order. -/
inductive Event where
  /-- A call to `_get_process_on_port` and its result. -/
  | lookup (res : Option ProcInfo)
  /-- A remediation command handed to `subprocess.run`; `elevated` records
  the `needs_admin` flag (wrapping in `Start-Process ... -Verb RunAs`). -/
  | run (c : Cmd) (elevated : Bool)
  /-- An `asyncio.sleep`, in milliseconds. -/
  | sleepMs (ms : Nat)
  /-- The decision point in `_check_port` where reclamation is invoked
  (`"Attempting to kill process on port ..."`, line 77). -/
  | reclaim (port : Nat)
  /-- A `socket.bind` attempt on the probed port and its outcome. -/
  | bindAttempt (ok : Bool)
deriving DecidableEq

/-- Holds exactly on remediation-command events. -/
def Event.isRun : Event → Bool
  | .run _ _ => true
  | _ => false

/-- Holds exactly on bind-probe events. -/
def Event.isBind : Event → Bool
  | .bindAttempt _ => true
  | _ => false

/-- Holds exactly on reclamation-invocation events. -/
def Event.isReclaim : Event → Bool
  | .reclaim _ => true
  | _ => false

/-- The OS oracle for one port: `look i` is what the i-th occupancy lookup
returns, `bind i` whether the i-th bind attempt succeeds. -/
structure Env where
  look : Nat → Option ProcInfo
  bind : Nat → Bool

/-- The escalating method list of the zombie branch of
`_kill_process_on_port` (source lines 517-532), each with its
`needs_admin` flag, in source order. -/
def zombieMethods (pid port : Nat) : List (Cmd × Bool) :=
  [ (.stopProcess pid true, false),
    (.stopByPort port, false),
    (.taskkill pid false, false),
    (.taskkill pid true, true),
    (.delExcludedRange port, true),
    (.addExcludedRange port, true),
    (.tcpAutoTuning false, true),
    (.tcpAutoTuning true, true),
    (.winsockReset, true),
    (.intIpReset, true) ]

/-- The zombie branch loop (source lines 534-551): run each method, sleep
2 s, re-check occupancy; return `true` at the first check that finds the
port free, `false` when the method list is exhausted. -/
def killZombieLoop (env : Env) : List (Cmd × Bool) → Nat → Bool × List Event × Nat
  | [], k => (false, [], k)
  | m :: rest, k =>
    match env.look k with
    | none => (true, [Event.run m.1 m.2, Event.sleepMs 2000, Event.lookup none], k + 1)
    | some info =>
      let r := killZombieLoop env rest (k + 1)
      (r.1, Event.run m.1 m.2 :: Event.sleepMs 2000 :: Event.lookup (some info) :: r.2.1, r.2.2)

/-- Graceful termination command of the normal branch:
`powershell Stop-Process -Id pid` (source line 562). -/
def gracefulKill (pid : Nat) : Event :=
  Event.run (Cmd.stopProcess pid false) false

/-- Forced termination command of the normal branch:
`powershell Stop-Process -Id pid -Force` (source line 577). -/
def forcedKill (pid : Nat) : Event :=
  Event.run (Cmd.stopProcess pid true) false

/-- The normal-process branch of `_kill_process_on_port` (source lines
558-595): up to `fuel` cycles of graceful kill, sleep 2 s, re-check,
then - only if the occupant is still there - forced kill, sleep 2 s,
re-check, then sleep 1 s; `true` at the first check finding the port
free, `false` after the last cycle. -/
def killNormalLoop (env : Env) (pid : Nat) : Nat → Nat → Bool × List Event × Nat
  | 0, k => (false, [], k)
  | fuel + 1, k =>
    match env.look k with
    | none => (true, [gracefulKill pid, Event.sleepMs 2000, Event.lookup none], k + 1)
    | some i1 =>
      match env.look (k + 1) with
      | none =>
        (true, [gracefulKill pid, Event.sleepMs 2000, Event.lookup (some i1),
                forcedKill pid, Event.sleepMs 2000, Event.lookup none], k + 2)
      | some i2 =>
        let r := killNormalLoop env pid fuel (k + 2)
        (r.1, gracefulKill pid :: Event.sleepMs 2000 :: Event.lookup (some i1) ::
              forcedKill pid :: Event.sleepMs 2000 :: Event.lookup (some i2) ::
              Event.sleepMs 1000 :: r.2.1, r.2.2)

/-- Method `_kill_process_on_port(port)` (source lines 503-602), reading its
occupancy lookups from `env.look` starting at index `k`.  Returns the
boolean result, the event trace, and the next unread lookup index. -/
def killProcessOnPort (env : Env) (port k : Nat) : Bool × List Event × Nat :=
  match env.look k with
  | none => (true, [Event.lookup none], k + 1)
  | some info =>
    if info.name = "ZOMBIE" then
      let r := killZombieLoop env (zombieMethods info.pid port) (k + 1)
      (r.1, Event.lookup (some info) :: r.2.1, r.2.2)
    else
      let r := killNormalLoop env info.pid 3 (k + 1)
      (r.1, Event.lookup (some info) :: r.2.1, r.2.2)

/-- Process names treated as the system's own family in `_check_port`
(source line 76). -/
def pythonFamily : List String :=
  ["python.exe", "pythonw.exe", "python3.exe", "python3.13.exe"]

/-- Python's `str.lower()` on the ASCII process names involved:
character-wise lowercasing of the string. -/
def lowerString (s : String) : String :=
  ⟨s.data.map Char.toLower⟩

/-- The lookup-retry loop of `_check_port` (source lines 65-71): while no
process info was found, sleep 0.2 s and look again, up to `fuel` times. -/
def lookupRetryLoop (env : Env) (cur : Option ProcInfo) : Nat → Nat → Option ProcInfo × List Event × Nat
  | 0, k => (cur, [], k)
  | fuel + 1, k =>
    match cur with
    | some info => (some info, [], k)
    | none =>
      let r := env.look k
      let rec_ := lookupRetryLoop env r fuel (k + 1)
      (rec_.1, Event.sleepMs 200 :: Event.lookup r :: rec_.2.1, rec_.2.2)

/-- The wait loop after a successful kill in `_check_port` (source lines
80-83): up to `fuel` times, sleep `delay` (1 s) then stop as soon as a
lookup finds the port free. -/
def killWaitLoop (env : Env) : Nat → Nat → List Event × Nat
  | 0, k => ([], k)
  | fuel + 1, k =>
    match env.look k with
    | none => ([Event.sleepMs 1000, Event.lookup none], k + 1)
    | some info =>
      let r := killWaitLoop env fuel (k + 1)
      (Event.sleepMs 1000 :: Event.lookup (some info) :: r.1, r.2)

/-- The bind-probe loop of `_check_port` (source lines 86-95): up to
`fuel` bind attempts (`retries = 5`), sleeping `delay` (1 s) between
attempts but not after the last. -/
def bindLoop (env : Env) : Nat → Nat → Bool × List Event
  | 0, _ => (false, [])
  | fuel + 1, b =>
    if env.bind b then (true, [Event.bindAttempt true])
    else if fuel = 0 then (false, [Event.bindAttempt false])
    else
      let r := bindLoop env fuel (b + 1)
      (r.1, Event.bindAttempt false :: Event.sleepMs 1000 :: r.2)

/-- The occupant `_check_port` acts on: the value of `process_info` after
the initial lookup and the retry loop (source lines 63-71). -/
def resolvedOccupant (env : Env) : Option ProcInfo :=
  (lookupRetryLoop env (env.look 0) 3 1).1

/-- The reclamation phase of `_check_port` (source lines 73-83): if the
resolved occupant's lowercased name is in the python family, invoke
`_kill_process_on_port` and, when it reports success, run the wait loop.
Returns the phase's events and the next unread lookup index. -/
def reclaimPhase (env : Env) (port : Nat) (occ : Option ProcInfo) (k : Nat) : List Event × Nat :=
  match occ with
  | none => ([], k)
  | some info =>
    if lowerString info.name ∈ pythonFamily then
      let r := killProcessOnPort env port k
      if r.1 then
        let w := killWaitLoop env 3 r.2.2
        (Event.reclaim port :: r.2.1 ++ w.1, w.2)
      else
        (Event.reclaim port :: r.2.1, r.2.2)
    else ([], k)

/-- Method `_check_port(port)` with its default arguments `retries = 5`,
`delay = 1.0` (source lines 49-95): resolve the occupant, reclaim it only
when it is a python-family process, then probe the port by binding. -/
def checkPort (env : Env) (port : Nat) : Bool × List Event :=
  let r0 := env.look 0
  let retry := lookupRetryLoop env r0 3 1
  let recl := reclaimPhase env port retry.1 retry.2.2
  let probe := bindLoop env 5 0
  (probe.1, Event.lookup r0 :: retry.2.1 ++ recl.1 ++ probe.2)

/-- The fallback scan shared by `ensure_api_server` (lines 199-204) and
`ensure_ui_server` (lines 299-309): try each fallback port in order with
`_check_port`, returning the first that checks free. -/
def tryFallbacks (world : Nat → Env) : List Nat → Option Nat
  | [] => none
  | p :: rest => if (checkPort (world p) p).1 then some p else tryFallbacks world rest

/-- Port allocation as performed by `ensure_api_server` lines 188-208:
check the preferred port first, then each fallback in order; `none` when
every candidate is unusable.  `world p` is the OS oracle for port `p`. -/
def allocatePort (world : Nat → Env) (preferred : Nat) (fallbacks : List Nat) : Option Nat :=
  if (checkPort (world preferred) preferred).1 then some preferred
  else tryFallbacks world fallbacks

/-- The fallback port list of `ensure_api_server` (source line 190). -/
def apiFallbackPorts : List Nat := [8001, 8002, 8003, 8004, 8005]

/-- The fallback port list of `ensure_ui_server` (source line 298). -/
def uiFallbackPorts : List Nat := [8502, 8503, 8504, 8505]

/-! Section: the initialization pipeline (method `initialize`, source lines 363-395). -/

/-- The four pipeline steps, in source order (lines 375-380). -/
inductive StepName where
  | deps
  | ollama
  | api
  | ui
deriving DecidableEq

/-- The fixed step list of `initialize` (source lines 375-380). -/
def pipelineSteps : List StepName :=
  [StepName.deps, StepName.ollama, StepName.api, StepName.ui]

/-- Oracle for the pipeline: the boolean each `ensure_*` step returns. -/
structure PipelineEnv where
  stepOk : StepName → Bool

/-- Outcome of a pipeline run: overall result, the steps that were
executed (in execution order), the step reported as failed (if any), and
whether `cleanup` was invoked. -/
structure PipelineResult where
  success : Bool
  executed : List StepName
  failedStep : Option StepName
  cleanupCalled : Bool
deriving DecidableEq

/-- The step loop of `initialize` (source lines 382-390): run each step
in order; on the first step returning `False`, log it as failed, call
`cleanup`, and return `False` without running any later step. -/
def runSteps (env : PipelineEnv) : List StepName → PipelineResult
  | [] => ⟨true, [], none, false⟩
  | s :: rest =>
    if env.stepOk s then
      let r := runSteps env rest
      ⟨r.success, s :: r.executed, r.failedStep, r.cleanupCalled⟩
    else ⟨false, [s], some s, true⟩

/-- Method `SystemOrchestrator.initialize` restricted to its step loop
(source lines 375-390). -/
def initSystem (env : PipelineEnv) : PipelineResult :=
  runSteps env pipelineSteps

/-! Section: teardown (method `cleanup`, source lines 397-439). -/

/-- Oracle and preconditions for `cleanup`: which server attributes are
present and truthy, whether each `stop` call raises, the two ports read
from the configuration, and the sweep's occupancy answer per port. -/
structure CleanupEnv where
  uiPresent : Bool
  uiStopRaises : Bool
  apiPresent : Bool
  apiStopRaises : Bool
  ollamaStopRaises : Bool
  apiPort : Nat
  uiPort : Nat
  portOccupied : Nat → Bool

/-- Events of the embedded `cleanup`, in program order. -/
inductive CEvent where
  /-- A stop attempt for one service; `raised` records that the call
  raised and was caught by the surrounding `try`/`except`. -/
  | stopAttempt (svc : String) (raised : Bool)
  /-- The sweep's `_get_process_on_port(port)` check and its answer. -/
  | sweepCheck (port : Nat) (occupied : Bool)
  /-- The sweep's `_kill_process_on_port(port)` call. -/
  | sweepKill (port : Nat)
deriving DecidableEq

/-- Holds exactly on stop-attempt events. -/
def CEvent.isStop : CEvent → Bool
  | .stopAttempt _ _ => true
  | _ => false

/-- Erase the caught-exception flag of a stop attempt, keeping which
actions ran and in which order. -/
def CEvent.forgetRaised : CEvent → CEvent
  | .stopAttempt svc _ => .stopAttempt svc false
  | e => e

/-- The final sweep of `cleanup` for one port (source lines 433-435):
re-check occupancy and, only if a process is found, reclaim it. -/
def sweepPort (env : CleanupEnv) (port : Nat) : List CEvent :=
  if env.portOccupied port then [CEvent.sweepCheck port true, CEvent.sweepKill port]
  else [CEvent.sweepCheck port false]

/-- Method `SystemOrchestrator.cleanup` (source lines 397-439): stop the UI
server, then the API server, then Ollama - each inside its own
`try`/`except`, so a raise is caught and the next stop still runs - then
sweep the configured API and UI ports. -/
def cleanup (env : CleanupEnv) : List CEvent :=
  (if env.uiPresent then [CEvent.stopAttempt "ui" env.uiStopRaises] else []) ++
  (if env.apiPresent then [CEvent.stopAttempt "api" env.apiStopRaises] else []) ++
  [CEvent.stopAttempt "ollama" env.ollamaStopRaises] ++
  sweepPort env env.apiPort ++ sweepPort env env.uiPort

/-! Section: port persistence (method `ensure_api_server` lines 184-216,
method `ensure_ui_server` lines 290-312). -/

/-- The orchestrator's configuration restricted to the two port entries:
`none` means the key path is absent from `config`. -/
structure Config where
  portsApi : Option Nat
  portsUi : Option Nat
deriving DecidableEq

/-- Configuration and readiness events of the two `ensure_*` steps. -/
inductive SEvent where
  /-- An in-memory configuration write under the given key path. -/
  | writeCfg (key : String) (port : Nat)
  /-- A `_save_config()` call persisting the configuration to disk. -/
  | saveCfg
  /-- The step returning `True` with the given port in use. -/
  | ready (port : Nat)
deriving DecidableEq

/-- The port-allocation and persistence skeleton of `ensure_api_server`
(source lines 184-216 plus its success return): allocate a port, always
write it under `ports.api` and save the configuration, then start the
server (abstracted by the oracle `startOk`). -/
def ensureApiServer (world : Nat → Env) (cfg : Config) (startOk : Bool) :
    Bool × Config × List SEvent :=
  match allocatePort world (cfg.portsApi.getD 8000) apiFallbackPorts with
  | none => (false, cfg, [])
  | some p =>
    let cfg2 : Config := ⟨some p, cfg.portsUi⟩
    if startOk then (true, cfg2, [SEvent.writeCfg "ports.api" p, SEvent.saveCfg, SEvent.ready p])
    else (false, cfg2, [SEvent.writeCfg "ports.api" p, SEvent.saveCfg])

/-- The port-allocation and persistence skeleton of `ensure_ui_server`
(source lines 290-312 plus its success return): when the preferred port
checks free it is used without touching the configuration; only when a
fallback port is chosen is `ports.ui` written and the configuration
saved. -/
def ensureUiServer (world : Nat → Env) (cfg : Config) (startOk : Bool) :
    Bool × Config × List SEvent :=
  let pref := cfg.portsUi.getD 8501
  if (checkPort (world pref) pref).1 then
    if startOk then (true, cfg, [SEvent.ready pref]) else (false, cfg, [])
  else
    match tryFallbacks world uiFallbackPorts with
    | none => (false, cfg, [])
    | some p =>
      let cfg2 : Config := ⟨cfg.portsApi, some p⟩
      if startOk then (true, cfg2, [SEvent.writeCfg "ports.ui" p, SEvent.saveCfg, SEvent.ready p])
      else (false, cfg2, [SEvent.writeCfg "ports.ui" p, SEvent.saveCfg])

/-! Section: occupancy lookup (method `_get_process_on_port`, source lines 441-501). -/

/-- Outcome of the `tasklist /FI "PID eq pid"` query for one pid
(source lines 464-489). -/
inductive TaskRes where
  /-- Non-zero return code. -/
  | failRC
  /-- Output starting with `INFO: No tasks` - the pid no longer resolves
  to a running process. -/
  | noTasks
  /-- Some other `INFO:` message, or empty output. -/
  | otherInfo
  /-- CSV output that yields no row. -/
  | emptyCsv
  /-- CSV output whose first column is the process name. -/
  | name (s : String)
deriving DecidableEq

/-- The per-line scan of the netstat output (source lines 455-494): each
entry is `some pid` when the line has at least 5 fields and its last
field parses as an integer, `none` otherwise; lines whose tasklist query
fails are skipped. -/
def scanLines (task : Nat → TaskRes) : List (Option Nat) → Option ProcInfo
  | [] => none
  | none :: rest => scanLines task rest
  | some pid :: rest =>
    match task pid with
    | TaskRes.noTasks => some ⟨pid, "ZOMBIE"⟩
    | TaskRes.name s => some ⟨pid, s⟩
    | _ => scanLines task rest

/-- Method `_get_process_on_port` (source lines 441-501): `net` is `none` when
netstat returns non-zero or empty output, otherwise the parsed lines. -/
def getProcessOnPort (net : Option (List (Option Nat))) (task : Nat → TaskRes) :
    Option ProcInfo :=
  match net with
  | none => none
  | some lines => scanLines task lines

/-- The first netstat line that parses to a pid - the owning pid the
lookup finds. -/
def firstParsedPid : List (Option Nat) → Option Nat
  | [] => none
  | none :: rest => firstParsedPid rest
  | some pid :: _ => some pid

/-! Section: derived notions used to state the theorems. -/

/-- The zombie remediation ladder as run events, in source order. -/
def ladderEvents (pid port : Nat) : List Event :=
  (zombieMethods pid port).map (fun m => Event.run m.1 m.2)

/-- How many ladder methods the zombie loop executes against oracle
`env` starting at lookup index `k`: every method up to and including the
first whose re-check finds the port free, or all of them. -/
def zombieSteps (env : Env) : List (Cmd × Bool) → Nat → Nat
  | [], _ => 0
  | _ :: rest, k => if env.look k = none then 1 else zombieSteps env rest (k + 1) + 1

/-- The commands of `fuel` normal graceful-then-forced cycles, in order. -/
def normalLadderN (pid : Nat) : Nat → List Event
  | 0 => []
  | fuel + 1 => gracefulKill pid :: forcedKill pid :: normalLadderN pid fuel

/-- How many termination commands the normal loop executes against
oracle `env` starting at lookup index `k`: it stops right after the
first re-check that finds the port free. -/
def normalSteps (env : Env) : Nat → Nat → Nat
  | 0, _ => 0
  | fuel + 1, k =>
    if env.look k = none then 1
    else if env.look (k + 1) = none then 2
    else normalSteps env fuel (k + 2) + 2

/-- Checks that every remediation command in a trace is immediately
followed by a sleep and then a fresh occupancy lookup - success is never
concluded from the command itself. -/
def runsCheckedAfter : List Event → Bool
  | [] => true
  | Event.run _ _ :: Event.sleepMs _ :: Event.lookup _ :: rest => runsCheckedAfter rest
  | Event.run _ _ :: _ => false
  | _ :: rest => runsCheckedAfter rest

/-! Section: concrete oracles used as witnesses and counterexamples. -/

/-- A port that is free: no occupant is ever found and binding succeeds. -/
def envFree : Env := ⟨fun _ => none, fun _ => true⟩

/-- A port held by a non-reclaimable foreign process: every lookup finds
`nginx.exe` and every bind attempt fails. -/
def envBusy : Env := ⟨fun _ => some ⟨71, "nginx.exe"⟩, fun _ => false⟩

/-- A port held by a zombie entry that survives every remediation step. -/
def envZStuck : Env := ⟨fun _ => some ⟨99, "ZOMBIE"⟩, fun _ => false⟩

/-- A zombie occupant that disappears after the second ladder method. -/
def envZQuick : Env :=
  ⟨fun k => if k < 2 then some ⟨99, "ZOMBIE"⟩ else none, fun _ => false⟩

/-- A normal occupant that survives the first graceful signal and dies
at the first forced kill. -/
def envNormalQuick : Env :=
  ⟨fun k => if k < 2 then some ⟨7, "node.exe"⟩ else none, fun _ => true⟩

/-- A normal occupant that dies at the first graceful signal. -/
def envKillQuick : Env :=
  ⟨fun k => if k = 0 then some ⟨5, "node.exe"⟩ else none, fun _ => true⟩

/-- A host where ports 8000 and 8001 are occupied by non-reclaimable
processes and port 8002 is free. -/
def scenarioWorld : Nat → Env := fun p => if p = 8002 then envFree else envBusy

/-- A host where every port is occupied by a non-reclaimable process. -/
def busyWorld : Nat → Env := fun _ => envBusy

/-- A host where every port is free except 8501. -/
def worldUiFallback : Nat → Env := fun p => if p = 8501 then envBusy else envFree

/-- The configuration of a first run: no port entry persisted yet. -/
def cfgEmpty : Config := ⟨none, none⟩

/-- A configuration holding only a persisted API port. -/
def cfgApiOnly : Config := ⟨some 8000, none⟩

/-- A concrete teardown situation: both servers present, stopping the UI
server raises, and the process on port 8000 is still alive. -/
def envCleanupW : CleanupEnv :=
  ⟨true, true, true, false, false, 8000, 8501, fun p => p == 8000⟩

/-! Section: helper lemmas about the remediation loops. -/

theorem killZombieLoop_filter_run (env : Env) (l : List (Cmd × Bool)) :
    ∀ k, (killZombieLoop env l k).2.1.filter Event.isRun =
      (l.map (fun m => Event.run m.1 m.2)).take (zombieSteps env l k) := by
  induction l with
  | nil => intro k; simp [killZombieLoop, zombieSteps]
  | cons m rest ih =>
    intro k
    cases hm : env.look k with
    | none => simp [killZombieLoop, zombieSteps, hm, Event.isRun]
    | some info => simp [killZombieLoop, zombieSteps, hm, Event.isRun, ih]

theorem killZombieLoop_success_iff (env : Env) (l : List (Cmd × Bool)) :
    ∀ k, (killZombieLoop env l k).1 = true ↔ ∃ i, i < l.length ∧ env.look (k + i) = none := by
  induction l with
  | nil => intro k; simp [killZombieLoop]
  | cons m rest ih =>
    intro k
    cases hm : env.look k with
    | none =>
      constructor
      · intro _; exact ⟨0, by simp, by simpa using hm⟩
      · intro _; simp [killZombieLoop, hm]
    | some info =>
      constructor
      · intro h
        have h2 : (killZombieLoop env rest (k + 1)).1 = true := by
          simpa [killZombieLoop, hm] using h
        obtain ⟨i, hi, hl⟩ := (ih (k + 1)).1 h2
        refine ⟨i + 1, by simpa using Nat.succ_lt_succ hi, ?_⟩
        have he : k + (i + 1) = k + 1 + i := by omega
        rw [he]; exact hl
      · rintro ⟨i, hi, hl⟩
        simp only [killZombieLoop, hm]
        apply (ih (k + 1)).2
        cases i with
        | zero => rw [Nat.add_zero] at hl; exact absurd hl (by simp [hm])
        | succ j =>
          refine ⟨j, by simpa using Nat.lt_of_succ_lt_succ hi, ?_⟩
          have he : k + 1 + j = k + (j + 1) := by omega
          rw [he]; exact hl

theorem killZombieLoop_success_suffix (env : Env) (l : List (Cmd × Bool)) :
    ∀ k, (killZombieLoop env l k).1 = true →
      ∃ pre c adm, (killZombieLoop env l k).2.1 =
        pre ++ [Event.run c adm, Event.sleepMs 2000, Event.lookup none] := by
  induction l with
  | nil => intro k h; simp [killZombieLoop] at h
  | cons m rest ih =>
    intro k h
    cases hm : env.look k with
    | none => exact ⟨[], m.1, m.2, by simp [killZombieLoop, hm]⟩
    | some info =>
      simp only [killZombieLoop, hm] at h ⊢
      obtain ⟨pre, c, adm, hpre⟩ := ih (k + 1) h
      exact ⟨Event.run m.1 m.2 :: Event.sleepMs 2000 :: Event.lookup (some info) :: pre, c, adm,
        by simp [hpre]⟩

theorem killZombieLoop_runsChecked (env : Env) (l : List (Cmd × Bool)) :
    ∀ k, runsCheckedAfter (killZombieLoop env l k).2.1 = true := by
  induction l with
  | nil => intro k; simp [killZombieLoop, runsCheckedAfter]
  | cons m rest ih =>
    intro k
    cases hm : env.look k with
    | none => simp [killZombieLoop, hm, runsCheckedAfter]
    | some info => simp [killZombieLoop, hm, runsCheckedAfter, ih]

theorem killZombieLoop_no_bind_reclaim (env : Env) (l : List (Cmd × Bool)) :
    ∀ k, ∀ e ∈ (killZombieLoop env l k).2.1, e.isBind = false ∧ e.isReclaim = false := by
  induction l with
  | nil => intro k e he; simp [killZombieLoop] at he
  | cons m rest ih =>
    intro k e he
    cases hm : env.look k with
    | none =>
      simp [killZombieLoop, hm] at he
      rcases he with h | h | h <;> subst h <;> simp [Event.isBind, Event.isReclaim]
    | some info =>
      simp [killZombieLoop, hm] at he
      rcases he with h | h | h | h
      · subst h; simp [Event.isBind, Event.isReclaim]
      · subst h; simp [Event.isBind, Event.isReclaim]
      · subst h; simp [Event.isBind, Event.isReclaim]
      · exact ih (k + 1) e h

theorem killNormalLoop_success_iff (env : Env) (pid : Nat) :
    ∀ fuel k, (killNormalLoop env pid fuel k).1 = true ↔
      ∃ i, i < 2 * fuel ∧ env.look (k + i) = none := by
  intro fuel
  induction fuel with
  | zero => intro k; simp [killNormalLoop]
  | succ fuel ih =>
    intro k
    cases hm0 : env.look k with
    | none =>
      constructor
      · intro _; exact ⟨0, by omega, by simpa using hm0⟩
      · intro _; simp [killNormalLoop, hm0]
    | some i1 =>
      cases hm1 : env.look (k + 1) with
      | none =>
        constructor
        · intro _; exact ⟨1, by omega, hm1⟩
        · intro _; simp [killNormalLoop, hm0, hm1]
      | some i2 =>
        constructor
        · intro h
          have h2 : (killNormalLoop env pid fuel (k + 2)).1 = true := by
            simpa [killNormalLoop, hm0, hm1] using h
          obtain ⟨i, hi, hl⟩ := (ih (k + 2)).1 h2
          refine ⟨i + 2, by omega, ?_⟩
          have he : k + (i + 2) = k + 2 + i := by omega
          rw [he]; exact hl
        · rintro ⟨i, hi, hl⟩
          simp only [killNormalLoop, hm0, hm1]
          apply (ih (k + 2)).2
          rcases i with _ | _ | j
          · rw [Nat.add_zero] at hl; exact absurd hl (by simp [hm0])
          · exact absurd hl (by simp [hm1])
          · refine ⟨j, by omega, ?_⟩
            have he : k + 2 + j = k + (j + 2) := by omega
            rw [he]; exact hl

theorem killNormalLoop_filter_run (env : Env) (pid : Nat) :
    ∀ fuel k, (killNormalLoop env pid fuel k).2.1.filter Event.isRun =
      (normalLadderN pid fuel).take (normalSteps env fuel k) := by
  intro fuel
  induction fuel with
  | zero => intro k; simp [killNormalLoop, normalLadderN, normalSteps]
  | succ fuel ih =>
    intro k
    cases hm0 : env.look k with
    | none =>
      simp [killNormalLoop, normalLadderN, normalSteps, hm0, Event.isRun,
        gracefulKill, forcedKill]
    | some i1 =>
      cases hm1 : env.look (k + 1) with
      | none =>
        simp [killNormalLoop, normalLadderN, normalSteps, hm0, hm1, Event.isRun,
          gracefulKill, forcedKill]
      | some i2 =>
        simp [killNormalLoop, normalLadderN, normalSteps, hm0, hm1, Event.isRun,
          gracefulKill, forcedKill, ih]

theorem killNormalLoop_success_suffix (env : Env) (pid : Nat) :
    ∀ fuel k, (killNormalLoop env pid fuel k).1 = true →
      ∃ pre c adm, (killNormalLoop env pid fuel k).2.1 =
        pre ++ [Event.run c adm, Event.sleepMs 2000, Event.lookup none] := by
  intro fuel
  induction fuel with
  | zero => intro k h; simp [killNormalLoop] at h
  | succ fuel ih =>
    intro k h
    cases hm0 : env.look k with
    | none =>
      exact ⟨[], Cmd.stopProcess pid false, false, by simp [killNormalLoop, hm0, gracefulKill]⟩
    | some i1 =>
      cases hm1 : env.look (k + 1) with
      | none =>
        exact ⟨[gracefulKill pid, Event.sleepMs 2000, Event.lookup (some i1)],
          Cmd.stopProcess pid true, false, by simp [killNormalLoop, hm0, hm1, forcedKill]⟩
      | some i2 =>
        have h2 : (killNormalLoop env pid fuel (k + 2)).1 = true := by
          simpa [killNormalLoop, hm0, hm1] using h
        obtain ⟨pre, c, adm, hpre⟩ := ih (k + 2) h2
        refine ⟨gracefulKill pid :: Event.sleepMs 2000 :: Event.lookup (some i1) ::
          forcedKill pid :: Event.sleepMs 2000 :: Event.lookup (some i2) ::
          Event.sleepMs 1000 :: pre, c, adm, ?_⟩
        simp [killNormalLoop, hm0, hm1, hpre]

theorem killNormalLoop_runsChecked (env : Env) (pid : Nat) :
    ∀ fuel k, runsCheckedAfter (killNormalLoop env pid fuel k).2.1 = true := by
  intro fuel
  induction fuel with
  | zero => intro k; simp [killNormalLoop, runsCheckedAfter]
  | succ fuel ih =>
    intro k
    cases hm0 : env.look k with
    | none => simp [killNormalLoop, hm0, runsCheckedAfter, gracefulKill, forcedKill]
    | some i1 =>
      cases hm1 : env.look (k + 1) with
      | none => simp [killNormalLoop, hm0, hm1, runsCheckedAfter, gracefulKill, forcedKill]
      | some i2 =>
        simp [killNormalLoop, hm0, hm1, runsCheckedAfter, gracefulKill, forcedKill, ih]

theorem killNormalLoop_no_bind_reclaim (env : Env) (pid : Nat) :
    ∀ fuel k, ∀ e ∈ (killNormalLoop env pid fuel k).2.1,
      e.isBind = false ∧ e.isReclaim = false := by
  intro fuel
  induction fuel with
  | zero => intro k e he; simp [killNormalLoop] at he
  | succ fuel ih =>
    intro k e he
    cases hm0 : env.look k with
    | none =>
      simp [killNormalLoop, hm0] at he
      rcases he with h | h | h <;> subst h <;>
        simp [Event.isBind, Event.isReclaim, gracefulKill]
    | some i1 =>
      cases hm1 : env.look (k + 1) with
      | none =>
        simp [killNormalLoop, hm0, hm1] at he
        rcases he with h | h | h | h | h | h <;> subst h <;>
          simp [Event.isBind, Event.isReclaim, gracefulKill, forcedKill]
      | some i2 =>
        simp [killNormalLoop, hm0, hm1] at he
        rcases he with h | h | h | h | h | h | h | h
        · subst h; simp [Event.isBind, Event.isReclaim, gracefulKill]
        · subst h; simp [Event.isBind, Event.isReclaim]
        · subst h; simp [Event.isBind, Event.isReclaim]
        · subst h; simp [Event.isBind, Event.isReclaim, forcedKill]
        · subst h; simp [Event.isBind, Event.isReclaim]
        · subst h; simp [Event.isBind, Event.isReclaim]
        · subst h; simp [Event.isBind, Event.isReclaim]
        · exact ih (k + 2) e h

theorem killProcessOnPort_runsChecked (env : Env) (port k : Nat) :
    runsCheckedAfter (killProcessOnPort env port k).2.1 = true := by
  cases hm : env.look k with
  | none => simp [killProcessOnPort, hm, runsCheckedAfter]
  | some info =>
    by_cases hz : info.name = "ZOMBIE"
    · simp [killProcessOnPort, hm, hz, runsCheckedAfter, killZombieLoop_runsChecked]
    · simp [killProcessOnPort, hm, hz, runsCheckedAfter, killNormalLoop_runsChecked]

theorem killProcessOnPort_no_bind_reclaim (env : Env) (port k : Nat) :
    ∀ e ∈ (killProcessOnPort env port k).2.1, e.isBind = false ∧ e.isReclaim = false := by
  intro e he
  cases hm : env.look k with
  | none =>
    simp [killProcessOnPort, hm] at he
    subst he; simp [Event.isBind, Event.isReclaim]
  | some info =>
    by_cases hz : info.name = "ZOMBIE"
    · simp [killProcessOnPort, hm, hz] at he
      rcases he with h | h
      · subst h; simp [Event.isBind, Event.isReclaim]
      · exact killZombieLoop_no_bind_reclaim env _ _ e h
    · simp [killProcessOnPort, hm, hz] at he
      rcases he with h | h
      · subst h; simp [Event.isBind, Event.isReclaim]
      · exact killNormalLoop_no_bind_reclaim env _ _ _ e h

theorem lookupRetryLoop_events (env : Env) :
    ∀ fuel cur k, ∀ e ∈ (lookupRetryLoop env cur fuel k).2.1,
      e.isBind = false ∧ e.isReclaim = false ∧ e.isRun = false := by
  intro fuel
  induction fuel with
  | zero => intro cur k e he; simp [lookupRetryLoop] at he
  | succ fuel ih =>
    intro cur k e he
    cases cur with
    | some info => simp [lookupRetryLoop] at he
    | none =>
      simp [lookupRetryLoop] at he
      rcases he with h | h | h
      · subst h; simp [Event.isBind, Event.isReclaim, Event.isRun]
      · subst h; simp [Event.isBind, Event.isReclaim, Event.isRun]
      · exact ih _ _ e h

theorem killWaitLoop_events (env : Env) :
    ∀ fuel k, ∀ e ∈ (killWaitLoop env fuel k).1,
      e.isBind = false ∧ e.isReclaim = false := by
  intro fuel
  induction fuel with
  | zero => intro k e he; simp [killWaitLoop] at he
  | succ fuel ih =>
    intro k e he
    cases hm : env.look k with
    | none =>
      simp [killWaitLoop, hm] at he
      rcases he with h | h <;> subst h <;> simp [Event.isBind, Event.isReclaim]
    | some info =>
      simp [killWaitLoop, hm] at he
      rcases he with h | h | h
      · subst h; simp [Event.isBind, Event.isReclaim]
      · subst h; simp [Event.isBind, Event.isReclaim]
      · exact ih (k + 1) e h

theorem bindLoop_events (env : Env) :
    ∀ fuel b, ∀ e ∈ (bindLoop env fuel b).2, e.isReclaim = false ∧ e.isRun = false := by
  intro fuel
  induction fuel with
  | zero => intro b e he; simp [bindLoop] at he
  | succ fuel ih =>
    intro b e he
    by_cases hb : env.bind b
    · simp [bindLoop, hb] at he
      subst he; simp [Event.isReclaim, Event.isRun]
    · by_cases hf : fuel = 0
      · simp [bindLoop, hb, hf] at he
        subst he; simp [Event.isReclaim, Event.isRun]
      · simp [bindLoop, hb, hf] at he
        rcases he with h | h | h
        · subst h; simp [Event.isReclaim, Event.isRun]
        · subst h; simp [Event.isReclaim, Event.isRun]
        · exact ih (b + 1) e h

theorem tryFallbacks_eq_find (world : Nat → Env) :
    ∀ l : List Nat, tryFallbacks world l = l.find? (fun p => (checkPort (world p) p).1) := by
  intro l
  induction l with
  | nil => rfl
  | cons p rest ih =>
    by_cases h : (checkPort (world p) p).1 <;> simp [tryFallbacks, List.find?, h, ih]

/-! Section: the claims. -/

/-- C1: port allocation probes the preferred port first and then each
fallback in list order, returning the first candidate whose check
reports the port usable and `none` when every candidate is unusable (in
which case the step fails); in the concrete scenario where the preferred
port and the first fallback are occupied by non-reclaimable processes
and the second fallback is free, it returns the second fallback. -/
theorem allocate_probes_preferred_then_fallbacks :
    (∀ (world : Nat → Env) (preferred : Nat) (fallbacks : List Nat),
      allocatePort world preferred fallbacks =
        (preferred :: fallbacks).find? (fun p => (checkPort (world p) p).1)) ∧
    allocatePort scenarioWorld 8000 [8001, 8002] = some 8002 ∧
    allocatePort busyWorld 8000 apiFallbackPorts = none ∧
    ensureApiServer busyWorld cfgEmpty true = (false, cfgEmpty, []) := by
  refine ⟨?_, by decide, by decide, by decide⟩
  intro world preferred fallbacks
  by_cases h : (checkPort (world preferred) preferred).1 <;>
    simp [allocatePort, List.find?, h, tryFallbacks_eq_find]

/-- C2: the pipeline runs Dependencies, Ollama, API server, UI server in
this fixed order; on the first failing step it calls `cleanup`, reports
that step as failed, returns failure, and executes no later step. -/
theorem pipeline_fail_fast (env : PipelineEnv) :
    initSystem env =
      if env.stepOk StepName.deps = false then
        ⟨false, [StepName.deps], some StepName.deps, true⟩
      else if env.stepOk StepName.ollama = false then
        ⟨false, [StepName.deps, StepName.ollama], some StepName.ollama, true⟩
      else if env.stepOk StepName.api = false then
        ⟨false, [StepName.deps, StepName.ollama, StepName.api], some StepName.api, true⟩
      else if env.stepOk StepName.ui = false then
        ⟨false, pipelineSteps, some StepName.ui, true⟩
      else ⟨true, pipelineSteps, none, false⟩ := by
  cases h1 : env.stepOk StepName.deps <;> cases h2 : env.stepOk StepName.ollama <;>
    cases h3 : env.stepOk StepName.api <;> cases h4 : env.stepOk StepName.ui <;>
      simp [initSystem, runSteps, pipelineSteps, h1, h2, h3, h4]

/-- C9: when the occupancy lookup finds an owning pid whose `tasklist`
query reports no running task, it returns that pid marked `ZOMBIE`
instead of reporting the port unowned. -/
theorem zombie_reported_not_none (lines : List (Option Nat)) (task : Nat → TaskRes)
    (pid : Nat) (h1 : firstParsedPid lines = some pid)
    (h2 : task pid = TaskRes.noTasks) :
    getProcessOnPort (some lines) task = some ⟨pid, "ZOMBIE"⟩ := by
  induction lines with
  | nil => simp [firstParsedPid] at h1
  | cons a rest ih =>
    cases a with
    | none =>
      simp only [firstParsedPid] at h1
      simpa [getProcessOnPort, scanLines] using ih h1
    | some q =>
      simp only [firstParsedPid, Option.some.injEq] at h1
      subst h1
      simp [getProcessOnPort, scanLines, h2]

/-- C9 witness: a concrete netstat table whose first parseable line
holds pid 42, with `tasklist` resolving no task for it. -/
theorem zombie_reported_not_none_witness :
    getProcessOnPort (some [none, some 42]) (fun _ => TaskRes.noTasks) =
      some ⟨42, "ZOMBIE"⟩ :=
  zombie_reported_not_none [none, some 42] (fun _ => TaskRes.noTasks) 42 rfl rfl

/-- C10: when the occupancy lookup finds no owning process,
`_kill_process_on_port` returns `true` immediately, issuing no
termination command. -/
theorem kill_noop_on_free_port (env : Env) (port k : Nat) (h : env.look k = none) :
    killProcessOnPort env port k = (true, [Event.lookup none], k + 1) ∧
    (killProcessOnPort env port k).2.1.filter Event.isRun = [] := by
  constructor
  · simp [killProcessOnPort, h]
  · simp [killProcessOnPort, h, Event.isRun]

/-- C10 witness: reclaiming the free port 9999 is a successful no-op. -/
theorem kill_noop_on_free_port_witness :
    killProcessOnPort envFree 9999 0 = (true, [Event.lookup none], 1) ∧
    (killProcessOnPort envFree 9999 0).2.1.filter Event.isRun = [] :=
  kill_noop_on_free_port envFree 9999 0 rfl

/-- C3 counterexample: on a port whose lookup finds no owner,
`_kill_process_on_port` returns `true` although it issued no remediation
command at all, so no occupancy lookup performed after a remediation
command ever took place. -/
theorem kill_success_without_any_command :
    (killProcessOnPort envFree 9100 0).1 = true ∧
    (killProcessOnPort envFree 9100 0).2.1.filter Event.isRun = [] := by
  decide

/-- C3 (amended): `_kill_process_on_port` returns `true` only when an
occupancy lookup found the port unowned - the initial lookup when the
port was already free (in which case no command is issued), and
otherwise, whenever an occupant was found, a fresh lookup performed
after a remediation command and a bounded wait; moreover every
remediation command in the trace is followed by a wait and a fresh
occupancy check, never trusted on its own. -/
theorem kill_success_requires_free_check (env : Env) (port k : Nat)
    (h : (killProcessOnPort env port k).1 = true) :
    (∃ pre, (killProcessOnPort env port k).2.1 = pre ++ [Event.lookup none]) ∧
    (env.look k ≠ none →
      ∃ pre c adm, (killProcessOnPort env port k).2.1 =
        pre ++ [Event.run c adm, Event.sleepMs 2000, Event.lookup none]) ∧
    runsCheckedAfter ((killProcessOnPort env port k).2.1) = true := by
  have main : env.look k ≠ none →
      ∃ pre c adm, (killProcessOnPort env port k).2.1 =
        pre ++ [Event.run c adm, Event.sleepMs 2000, Event.lookup none] := by
    intro hn
    cases hm : env.look k with
    | none => exact absurd hm hn
    | some info =>
      by_cases hz : info.name = "ZOMBIE"
      · have h2 : (killZombieLoop env (zombieMethods info.pid port) (k + 1)).1 = true := by
          simpa [killProcessOnPort, hm, hz] using h
        obtain ⟨pre, c, adm, hpre⟩ := killZombieLoop_success_suffix env _ (k + 1) h2
        exact ⟨Event.lookup (some info) :: pre, c, adm,
          by simp [killProcessOnPort, hm, hz, hpre]⟩
      · have h2 : (killNormalLoop env info.pid 3 (k + 1)).1 = true := by
          simpa [killProcessOnPort, hm, hz] using h
        obtain ⟨pre, c, adm, hpre⟩ := killNormalLoop_success_suffix env info.pid 3 (k + 1) h2
        exact ⟨Event.lookup (some info) :: pre, c, adm,
          by simp [killProcessOnPort, hm, hz, hpre]⟩
  refine ⟨?_, main, killProcessOnPort_runsChecked env port k⟩
  cases hm : env.look k with
  | none => exact ⟨[], by simp [killProcessOnPort, hm]⟩
  | some info =>
    obtain ⟨pre, c, adm, hpre⟩ := main (by simp [hm])
    exact ⟨pre ++ [Event.run c adm, Event.sleepMs 2000], by simp [hpre]⟩

/-- C3 witness: port 9200 held by `node.exe`, freed by the first
graceful signal; success follows a command, a wait and a free check. -/
theorem kill_success_requires_free_check_witness :
    (∃ pre, (killProcessOnPort envKillQuick 9200 0).2.1 = pre ++ [Event.lookup none]) ∧
    (envKillQuick.look 0 ≠ none →
      ∃ pre c adm, (killProcessOnPort envKillQuick 9200 0).2.1 =
        pre ++ [Event.run c adm, Event.sleepMs 2000, Event.lookup none]) ∧
    runsCheckedAfter ((killProcessOnPort envKillQuick 9200 0).2.1) = true :=
  kill_success_requires_free_check envKillQuick 9200 0 (by decide)

/-- C4 counterexample: against the zombie occupant of pid 99, the first
remediation command issued is already the forced
`Stop-Process -Id 99 -Force`, and no graceful (non-forced) stop of
pid 99 is ever issued: the ladder does not start with a graceful
signal to the pid. -/
theorem zombie_ladder_first_step_forced :
    ((killProcessOnPort envZStuck 8000 0).2.1.filter Event.isRun).head? =
      some (Event.run (Cmd.stopProcess 99 true) false) ∧
    (∀ e ∈ (killProcessOnPort envZStuck 8000 0).2.1,
      e ≠ Event.run (Cmd.stopProcess 99 false) false) := by
  decide

/-- C4 (amended): for a zombie occupant the remediation ladder runs in
the fixed source order - forced stop by pid, forced stop of all owners
of the port, forced kill by pid, forced kill including children, delete
then re-add of a port exclusion range, TCP auto-tuning off then on,
winsock reset, IP stack reset - stopping right after the first step
whose re-check verifies the port free, succeeding iff some step's
re-check finds it free (so failure, reported as needing manual
intervention, exactly when all ten steps fail), with every command
followed by a wait and a fresh occupancy check. -/
theorem zombie_ladder_in_order (env : Env) (port pid k : Nat)
    (h : env.look k = some ⟨pid, "ZOMBIE"⟩) :
    ((killProcessOnPort env port k).2.1.filter Event.isRun =
      (ladderEvents pid port).take (zombieSteps env (zombieMethods pid port) (k + 1))) ∧
    ((killProcessOnPort env port k).1 = true ↔
      ∃ i, i < (zombieMethods pid port).length ∧ env.look (k + 1 + i) = none) ∧
    runsCheckedAfter ((killProcessOnPort env port k).2.1) = true := by
  refine ⟨?_, ?_, killProcessOnPort_runsChecked env port k⟩
  · simp [killProcessOnPort, h, Event.isRun, ladderEvents, killZombieLoop_filter_run]
  · have h2 := killZombieLoop_success_iff env (zombieMethods pid port) (k + 1)
    constructor
    · intro hr
      exact h2.1 (by simpa [killProcessOnPort, h] using hr)
    · intro he
      simpa [killProcessOnPort, h] using h2.2 he

/-- C4 witness: a zombie occupant that disappears after the second
ladder method, so exactly two commands run and the call succeeds. -/
theorem zombie_ladder_in_order_witness :
    ((killProcessOnPort envZQuick 8000 0).2.1.filter Event.isRun =
      (ladderEvents 99 8000).take (zombieSteps envZQuick (zombieMethods 99 8000) 1)) ∧
    ((killProcessOnPort envZQuick 8000 0).1 = true ↔
      ∃ i, i < (zombieMethods 99 8000).length ∧ envZQuick.look (0 + 1 + i) = none) ∧
    runsCheckedAfter ((killProcessOnPort envZQuick 8000 0).2.1) = true :=
  zombie_ladder_in_order envZQuick 8000 99 0 (by decide)

/-- C6: for a non-zombie occupant, termination performs at most 3
graceful-then-forced cycles - the alternating command list - stopping at
the first re-check that finds the port free (so the forced command of a
cycle runs only when the occupant survived the graceful one), succeeding
exactly when one of the at most 6 re-checks finds the port free and
failing after the third full unsuccessful cycle, with every command
followed by a wait and a fresh occupancy re-check. -/
theorem normal_kill_three_cycles (env : Env) (port k pid : Nat) (name : String)
    (h1 : env.look k = some ⟨pid, name⟩) (h2 : name ≠ "ZOMBIE") :
    ((killProcessOnPort env port k).1 = true ↔
      ∃ i, i < 6 ∧ env.look (k + 1 + i) = none) ∧
    ((killProcessOnPort env port k).2.1.filter Event.isRun =
      (normalLadderN pid 3).take (normalSteps env 3 (k + 1))) ∧
    runsCheckedAfter ((killProcessOnPort env port k).2.1) = true := by
  refine ⟨?_, ?_, killProcessOnPort_runsChecked env port k⟩
  · constructor
    · intro hr
      have hr2 : (killNormalLoop env pid 3 (k + 1)).1 = true := by
        simpa [killProcessOnPort, h1, h2] using hr
      simpa using (killNormalLoop_success_iff env pid 3 (k + 1)).1 hr2
    · intro he
      have hr2 := (killNormalLoop_success_iff env pid 3 (k + 1)).2 (by simpa using he)
      simpa [killProcessOnPort, h1, h2] using hr2
  · simp [killProcessOnPort, h1, h2, Event.isRun, killNormalLoop_filter_run]

/-- C6 witness: a `node.exe` occupant that survives the graceful signal
of the first cycle and dies at its forced kill. -/
theorem normal_kill_three_cycles_witness :
    ((killProcessOnPort envNormalQuick 8000 0).1 = true ↔
      ∃ i, i < 6 ∧ envNormalQuick.look (0 + 1 + i) = none) ∧
    ((killProcessOnPort envNormalQuick 8000 0).2.1.filter Event.isRun =
      (normalLadderN 7 3).take (normalSteps envNormalQuick 3 (0 + 1))) ∧
    runsCheckedAfter ((killProcessOnPort envNormalQuick 8000 0).2.1) = true :=
  normal_kill_three_cycles envNormalQuick 8000 0 7 "node.exe" (by decide) (by decide)

theorem filter_eq_nil_of_all_false {p : Event → Bool} {l : List Event}
    (h : ∀ e ∈ l, p e = false) : l.filter p = [] := by
  rw [List.filter_eq_nil_iff]
  intro e he
  simp [h e he]

theorem filter_reclaim_kill (env : Env) (port k : Nat) :
    (killProcessOnPort env port k).2.1.filter Event.isReclaim = [] :=
  filter_eq_nil_of_all_false
    (fun e he => (killProcessOnPort_no_bind_reclaim env port k e he).2)

theorem filter_reclaim_wait (env : Env) (fuel k : Nat) :
    (killWaitLoop env fuel k).1.filter Event.isReclaim = [] :=
  filter_eq_nil_of_all_false (fun e he => (killWaitLoop_events env fuel k e he).2)

theorem filter_reclaim_retry (env : Env) (cur : Option ProcInfo) (fuel k : Nat) :
    (lookupRetryLoop env cur fuel k).2.1.filter Event.isReclaim = [] :=
  filter_eq_nil_of_all_false
    (fun e he => (lookupRetryLoop_events env fuel cur k e he).2.1)

theorem filter_reclaim_bind (env : Env) (fuel b : Nat) :
    (bindLoop env fuel b).2.filter Event.isReclaim = [] :=
  filter_eq_nil_of_all_false (fun e he => (bindLoop_events env fuel b e he).1)

theorem reclaimPhase_filter_reclaim (env : Env) (port : Nat) (occ : Option ProcInfo) (k : Nat) :
    (reclaimPhase env port occ k).1.filter Event.isReclaim =
      (match occ with
        | some info =>
          if lowerString info.name ∈ pythonFamily then [Event.reclaim port] else []
        | none => []) := by
  cases occ with
  | none => simp [reclaimPhase]
  | some info =>
    by_cases hf : lowerString info.name ∈ pythonFamily
    · by_cases hk : (killProcessOnPort env port k).1
      · simp [reclaimPhase, hf, hk, Event.isReclaim, List.filter_append,
          filter_reclaim_kill, filter_reclaim_wait]
      · simp [reclaimPhase, hf, hk, Event.isReclaim, filter_reclaim_kill]
    · simp [reclaimPhase, hf]

theorem reclaimPhase_no_bind (env : Env) (port : Nat) (occ : Option ProcInfo) (k : Nat) :
    ∀ e ∈ (reclaimPhase env port occ k).1, e.isBind = false := by
  intro e he
  cases occ with
  | none => simp [reclaimPhase] at he
  | some info =>
    by_cases hf : lowerString info.name ∈ pythonFamily
    · by_cases hk : (killProcessOnPort env port k).1
      · simp [reclaimPhase, hf, hk] at he
        rcases he with h | h | h
        · subst h; simp [Event.isBind]
        · exact (killProcessOnPort_no_bind_reclaim env port k e h).1
        · exact (killWaitLoop_events env 3 _ e h).1
      · simp [reclaimPhase, hf, hk] at he
        rcases he with h | h
        · subst h; simp [Event.isBind]
        · exact (killProcessOnPort_no_bind_reclaim env port k e h).1
    · simp [reclaimPhase, hf] at he

/-- C5 counterexample: during allocation, a port occupied by a zombie
entry is never reclaimed: the resolved occupant is the zombie, yet the
check's trace holds no reclamation event and no remediation command. -/
theorem checkPort_zombie_not_reclaimed :
    resolvedOccupant envZStuck = some ⟨99, "ZOMBIE"⟩ ∧
    (checkPort envZStuck 8000).2.filter Event.isReclaim = [] ∧
    (checkPort envZStuck 8000).2.filter Event.isRun = [] := by
  decide

/-- C5 (amended): in the allocation path, reclamation is attempted if
and only if the resolved occupant's lowercased name belongs to the
python family (the system's own runtime) - zombies and all other
occupants are left untouched - and the port's bind probes happen only
after the reclamation phase, which itself issues no probe. -/
theorem checkPort_reclaim_iff_family (env : Env) (port : Nat) :
    ((checkPort env port).2.filter Event.isReclaim =
      (match resolvedOccupant env with
        | some info =>
          if lowerString info.name ∈ pythonFamily then [Event.reclaim port] else []
        | none => [])) ∧
    (∃ pre post, (checkPort env port).2 = pre ++ post ∧
      (∀ e ∈ pre, e.isBind = false) ∧
      (∀ e ∈ post, e.isReclaim = false ∧ e.isRun = false)) := by
  constructor
  · simp [checkPort, List.filter_append, Event.isReclaim, filter_reclaim_retry,
      filter_reclaim_bind, reclaimPhase_filter_reclaim, resolvedOccupant]
  · refine ⟨Event.lookup (env.look 0) :: ((lookupRetryLoop env (env.look 0) 3 1).2.1 ++
      (reclaimPhase env port (lookupRetryLoop env (env.look 0) 3 1).1
        (lookupRetryLoop env (env.look 0) 3 1).2.2).1),
      (bindLoop env 5 0).2, ?_, ?_, ?_⟩
    · simp [checkPort]
    · intro e he
      simp at he
      rcases he with h | h | h
      · subst h; simp [Event.isBind]
      · exact (lookupRetryLoop_events env 3 _ 1 e h).1
      · exact reclaimPhase_no_bind env port _ _ e h
    · intro e he
      exact bindLoop_events env 5 0 e he

/-- C7: teardown stops the services in the exact reverse of their start
order - UI server, then API server, then Ollama - a raise caught while
stopping one service never changes which later stop attempts or sweep
actions run, and after the stop attempts a final sweep re-checks each
configured port, issuing a reclamation exactly for the ports still
occupied. -/
theorem cleanup_reverse_order_best_effort (env : CleanupEnv) :
    ((cleanup env).filter CEvent.isStop =
      (if env.uiPresent then [CEvent.stopAttempt "ui" env.uiStopRaises] else []) ++
      (if env.apiPresent then [CEvent.stopAttempt "api" env.apiStopRaises] else []) ++
      [CEvent.stopAttempt "ollama" env.ollamaStopRaises]) ∧
    ((cleanup env).map CEvent.forgetRaised =
      (cleanup ⟨env.uiPresent, false, env.apiPresent, false, false,
        env.apiPort, env.uiPort, env.portOccupied⟩).map CEvent.forgetRaised) ∧
    (cleanup env = (cleanup env).filter CEvent.isStop ++
      sweepPort env env.apiPort ++ sweepPort env env.uiPort) ∧
    (∀ p, CEvent.sweepKill p ∈ sweepPort env p ↔ env.portOccupied p = true) := by
  refine ⟨?_, ?_, ?_, ?_⟩
  · by_cases hu : env.uiPresent <;> by_cases ha : env.apiPresent <;>
      by_cases h1 : env.portOccupied env.apiPort <;>
        by_cases h2 : env.portOccupied env.uiPort <;>
          simp [cleanup, sweepPort, hu, ha, h1, h2, CEvent.isStop]
  · by_cases hu : env.uiPresent <;> by_cases ha : env.apiPresent <;>
      by_cases h1 : env.portOccupied env.apiPort <;>
        by_cases h2 : env.portOccupied env.uiPort <;>
          simp [cleanup, sweepPort, hu, ha, h1, h2, CEvent.forgetRaised]
  · by_cases hu : env.uiPresent <;> by_cases ha : env.apiPresent <;>
      by_cases h1 : env.portOccupied env.apiPort <;>
        by_cases h2 : env.portOccupied env.uiPort <;>
          simp [cleanup, sweepPort, hu, ha, h1, h2, CEvent.isStop]
  · intro p
    by_cases hp : env.portOccupied p <;> simp [sweepPort, hp]

/-- C8 counterexample: on a run whose configuration has no `ports.ui`
entry, when the preferred UI port 8501 probes free the UI server is
declared ready on it while the configuration is left unchanged and
nothing is saved to disk. -/
theorem ui_preferred_port_not_persisted :
    ensureUiServer (fun _ => envFree) cfgApiOnly true =
      (true, cfgApiOnly, [SEvent.ready 8501]) := by
  decide

/-- C8 (amended): the API port chosen by allocation is always written
under `ports.api` and persisted before the API server is started or
declared ready; the UI port is written under `ports.ui` and persisted
before readiness only when a fallback port is chosen - when the
preferred UI port probes free, the configuration is left untouched and
nothing is persisted. -/
theorem port_persistence (world : Nat → Env) (cfg : Config) (startOk : Bool) :
    (∀ p, allocatePort world (cfg.portsApi.getD 8000) apiFallbackPorts = some p →
      ensureApiServer world cfg startOk =
        (startOk, ⟨some p, cfg.portsUi⟩,
          [SEvent.writeCfg "ports.api" p, SEvent.saveCfg] ++
            (if startOk then [SEvent.ready p] else []))) ∧
    (∀ p, (checkPort (world (cfg.portsUi.getD 8501)) (cfg.portsUi.getD 8501)).1 = false →
      tryFallbacks world uiFallbackPorts = some p →
      ensureUiServer world cfg startOk =
        (startOk, ⟨cfg.portsApi, some p⟩,
          [SEvent.writeCfg "ports.ui" p, SEvent.saveCfg] ++
            (if startOk then [SEvent.ready p] else []))) ∧
    ((checkPort (world (cfg.portsUi.getD 8501)) (cfg.portsUi.getD 8501)).1 = true →
      ensureUiServer world cfg startOk =
        (startOk, cfg, if startOk then [SEvent.ready (cfg.portsUi.getD 8501)] else [])) := by
  refine ⟨?_, ?_, ?_⟩
  · intro p hp
    cases startOk <;> simp [ensureApiServer, hp]
  · intro p h1 h2
    cases startOk <;> simp [ensureUiServer, h1, h2]
  · intro h
    cases startOk <;> simp [ensureUiServer, h]

/-- C8 witness: on a host where only port 8501 is busy, the API step
persists `ports.api = 8000` and the UI step, forced to the fallback
8502, persists `ports.ui = 8502`, both before declaring readiness. -/
theorem port_persistence_witness :
    ensureApiServer worldUiFallback cfgEmpty true =
      (true, ⟨some 8000, none⟩,
        [SEvent.writeCfg "ports.api" 8000, SEvent.saveCfg, SEvent.ready 8000]) ∧
    ensureUiServer worldUiFallback cfgEmpty true =
      (true, ⟨none, some 8502⟩,
        [SEvent.writeCfg "ports.ui" 8502, SEvent.saveCfg, SEvent.ready 8502]) := by
  constructor
  · have h := (port_persistence worldUiFallback cfgEmpty true).1 8000 (by decide)
    simpa using h
  · have h := (port_persistence worldUiFallback cfgEmpty true).2.1 8502 (by decide) (by decide)
    simpa using h

end LocalLLM
